import Mathlib

/-!
Verification of the LCIA legal-consultation pipeline (src/utils.py, src/main.py).

The Python code is shallowly embedded: the dictionaries returned by
`legal_agent` (Python `Dict[str, Any]` produced by `json.loads` or by the
literal fallback dictionaries) are modelled by the inductive `Json`;
`json.loads` is modelled by the executable recursive-descent parser
`jloads` below (fuel-based, faithful to the JSON grammar accepted by
Python's `json` module, including the `NaN` / `Infinity` / `-Infinity`
constants; JSON numbers are kept as their lexemes, and a lone `\uXXXX`
surrogate escape — where CPython would produce a lone surrogate code
unit, which is not a Unicode scalar value — degrades to `Char.ofNat`'s
default).  External effects (Streamlit secrets, environment variables,
the LangChain model call) are passed in as explicit parameters.
-/

namespace LCIA

/-- Embedding of the dynamic JSON-shaped values (`Dict[str, Any]` etc.)
flowing through the Python code. Numbers keep their source lexeme. -/
inductive Json where
  | null : Json
  | bool (b : Bool) : Json
  | num (lexeme : String) : Json
  | str (s : String) : Json
  | arr (items : List Json) : Json
  | obj (fields : List (String × Json)) : Json

/-- Python `dict` insertion: overwrite the value of an existing key in
place, otherwise append the binding at the end (dict insertion order). -/
def insertKey (fields : List (String × Json)) (k : String) (v : Json) :
    List (String × Json) :=
  match fields with
  | [] => [(k, v)]
  | (k2, v2) :: rest =>
    if k = k2 then (k2, v) :: rest else (k2, v2) :: insertKey rest k v

/-- The whitespace characters skipped by Python's JSON decoder. -/
def isJsonWs (c : Char) : Bool :=
  c = ' ' || c = '\t' || c = '\n' || c = '\r'

/-- Skip leading JSON whitespace. -/
def skipWs : List Char → List Char
  | [] => []
  | c :: cs => if isJsonWs c then skipWs cs else c :: cs

/-- Value of one hex digit, as used by `\uXXXX` string escapes. -/
def hexVal (c : Char) : Option Nat :=
  if c.isDigit then some (c.toNat - 48)
  else if 'a' ≤ c && c ≤ 'f' then some (c.toNat - 87)
  else if 'A' ≤ c && c ≤ 'F' then some (c.toNat - 55)
  else none

/-- Four hex digits (the payload of a `\uXXXX` escape). -/
def hex4 : List Char → Option (Nat × List Char)
  | a :: b :: c :: d :: rest =>
    match hexVal a, hexVal b, hexVal c, hexVal d with
    | some x, some y, some z, some w =>
      some ((((x * 16 + y) * 16 + z) * 16 + w), rest)
    | _, _, _, _ => none
  | _ => none

/-- Body of a JSON string (the opening quote already consumed): returns
the decoded characters and the input after the closing quote.  Strict
mode, as in Python: unescaped control characters are rejected; the
escapes are the JSON ones; surrogate pairs written as two consecutive
`\uXXXX` escapes are combined. -/
def parseStrBody : Nat → List Char → Option (List Char × List Char)
  | 0, _ => none
  | _ + 1, [] => none
  | fuel + 1, c :: cs =>
    if c = '"' then some ([], cs)
    else if c = '\\' then
      match cs with
      | [] => none
      | e :: cs2 =>
        if e = '"' then
          (parseStrBody fuel cs2).map (fun r => ('"' :: r.1, r.2))
        else if e = '\\' then
          (parseStrBody fuel cs2).map (fun r => ('\\' :: r.1, r.2))
        else if e = '/' then
          (parseStrBody fuel cs2).map (fun r => ('/' :: r.1, r.2))
        else if e = 'b' then
          (parseStrBody fuel cs2).map (fun r => (Char.ofNat 8 :: r.1, r.2))
        else if e = 'f' then
          (parseStrBody fuel cs2).map (fun r => (Char.ofNat 12 :: r.1, r.2))
        else if e = 'n' then
          (parseStrBody fuel cs2).map (fun r => ('\n' :: r.1, r.2))
        else if e = 'r' then
          (parseStrBody fuel cs2).map (fun r => ('\r' :: r.1, r.2))
        else if e = 't' then
          (parseStrBody fuel cs2).map (fun r => ('\t' :: r.1, r.2))
        else if e = 'u' then
          match hex4 cs2 with
          | none => none
          | some (n, cs3) =>
            if 55296 ≤ n && n ≤ 56319 then
              match cs3 with
              | '\\' :: 'u' :: cs4 =>
                match hex4 cs4 with
                | some (m, cs5) =>
                  if 56320 ≤ m && m ≤ 57343 then
                    (parseStrBody fuel cs5).map (fun r =>
                      (Char.ofNat (65536 + (n - 55296) * 1024 + (m - 56320)) :: r.1, r.2))
                  else
                    (parseStrBody fuel cs3).map (fun r => (Char.ofNat n :: r.1, r.2))
                | none =>
                  (parseStrBody fuel cs3).map (fun r => (Char.ofNat n :: r.1, r.2))
              | _ =>
                (parseStrBody fuel cs3).map (fun r => (Char.ofNat n :: r.1, r.2))
            else
              (parseStrBody fuel cs3).map (fun r => (Char.ofNat n :: r.1, r.2))
        else none
    else if c.toNat < 32 then none
    else (parseStrBody fuel cs).map (fun r => (c :: r.1, r.2))

/-- Maximal digit prefix. -/
def takeDigits : List Char → List Char × List Char
  | [] => ([], [])
  | c :: cs =>
    if c.isDigit then
      let r := takeDigits cs
      (c :: r.1, r.2)
    else ([], c :: cs)

/-- Optional fractional part `.digits+` (consumed only when complete,
matching the maximal-munch regex used by Python's scanner). -/
def parseFrac : List Char → List Char × List Char
  | '.' :: c :: cs =>
    if c.isDigit then
      let r := takeDigits cs
      ('.' :: c :: r.1, r.2)
    else ([], '.' :: c :: cs)
  | s => ([], s)

/-- Optional exponent part `[eE][+-]?digits+` (consumed only when
complete). -/
def parseExp : List Char → List Char × List Char
  | [] => ([], [])
  | e :: rest =>
    if e = 'e' || e = 'E' then
      match rest with
      | [] => ([], [e])
      | [sgn] => if sgn.isDigit then ([e, sgn], []) else ([], [e, sgn])
      | sgn :: c :: cs =>
        if (sgn = '+' || sgn = '-') && c.isDigit then
          let r := takeDigits cs
          (e :: sgn :: c :: r.1, r.2)
        else if sgn.isDigit then
          let r := takeDigits (c :: cs)
          (e :: sgn :: r.1, r.2)
        else ([], e :: sgn :: c :: cs)
    else ([], e :: rest)

/-- Lexeme of a JSON number: `-?(0|[1-9][0-9]*)(\.[0-9]+)?([eE][+-]?[0-9]+)?`. -/
def parseNumber (s : List Char) : Option (List Char × List Char) :=
  let signed := match s with
    | '-' :: rest => (['-'], rest)
    | _ => (([] : List Char), s)
  match signed.2 with
  | [] => none
  | c :: cs =>
    if c = '0' then
      let f := parseFrac cs
      let ex := parseExp f.2
      some (signed.1 ++ c :: (f.1 ++ ex.1), ex.2)
    else if c.isDigit then
      let ds := takeDigits cs
      let f := parseFrac ds.2
      let ex := parseExp f.2
      some (signed.1 ++ c :: (ds.1 ++ f.1 ++ ex.1), ex.2)
    else none

/-- `\x7b` -/
def lbrace : Char := Char.ofNat 123

/-- `\x7d` -/
def rbrace : Char := Char.ofNat 125

mutual

/-- One JSON value, as accepted by Python's decoder at a value position
(including the non-standard `NaN`, `Infinity` and `-Infinity`). -/
def parseVal : Nat → List Char → Option (Json × List Char)
  | 0, _ => none
  | fuel + 1, s =>
    match s with
    | [] => none
    | c :: cs =>
      if c = '"' then
        (parseStrBody (cs.length + 1) cs).map (fun r => (Json.str (String.mk r.1), r.2))
      else if c = lbrace then parseObjBody fuel (skipWs cs)
      else if c = '[' then parseArrBody fuel (skipWs cs)
      else
        match s with
        | 't' :: 'r' :: 'u' :: 'e' :: rest => some (Json.bool true, rest)
        | 'f' :: 'a' :: 'l' :: 's' :: 'e' :: rest => some (Json.bool false, rest)
        | 'n' :: 'u' :: 'l' :: 'l' :: rest => some (Json.null, rest)
        | 'N' :: 'a' :: 'N' :: rest => some (Json.num "NaN", rest)
        | 'I' :: 'n' :: 'f' :: 'i' :: 'n' :: 'i' :: 't' :: 'y' :: rest =>
          some (Json.num "Infinity", rest)
        | '-' :: 'I' :: 'n' :: 'f' :: 'i' :: 'n' :: 'i' :: 't' :: 'y' :: rest =>
          some (Json.num "-Infinity", rest)
        | _ =>
          if c = '-' || c.isDigit then
            (parseNumber s).map (fun r => (Json.num (String.mk r.1), r.2))
          else none

/-- Array body after `[` and leading whitespace. -/
def parseArrBody : Nat → List Char → Option (Json × List Char)
  | 0, _ => none
  | fuel + 1, s =>
    match s with
    | [] => none
    | c :: cs =>
      if c = ']' then some (Json.arr [], cs)
      else
        match parseVal fuel s with
        | none => none
        | some (v, rest) => parseArrRest fuel [v] (skipWs rest)

/-- Remaining array items; `acc` holds items parsed so far, reversed. -/
def parseArrRest : Nat → List Json → List Char → Option (Json × List Char)
  | 0, _, _ => none
  | fuel + 1, acc, s =>
    match s with
    | [] => none
    | c :: cs =>
      if c = ']' then some (Json.arr acc.reverse, cs)
      else if c = ',' then
        match parseVal fuel (skipWs cs) with
        | none => none
        | some (v, rest) => parseArrRest fuel (v :: acc) (skipWs rest)
      else none

/-- Object body after the opening brace and leading whitespace. -/
def parseObjBody : Nat → List Char → Option (Json × List Char)
  | 0, _ => none
  | fuel + 1, s =>
    match s with
    | [] => none
    | c :: cs =>
      if c = rbrace then some (Json.obj [], cs)
      else if c = '"' then
        match parseStrBody (cs.length + 1) cs with
        | none => none
        | some (key, r1) =>
          match skipWs r1 with
          | ':' :: r2 =>
            match parseVal fuel (skipWs r2) with
            | none => none
            | some (v, r3) =>
              parseObjRest fuel (insertKey [] (String.mk key) v) (skipWs r3)
          | _ => none
      else none

/-- Remaining object members; `acc` is the dict built so far. -/
def parseObjRest : Nat → List (String × Json) → List Char →
    Option (Json × List Char)
  | 0, _, _ => none
  | fuel + 1, acc, s =>
    match s with
    | [] => none
    | c :: cs =>
      if c = rbrace then some (Json.obj acc, cs)
      else if c = ',' then
        match skipWs cs with
        | '"' :: r0 =>
          match parseStrBody (r0.length + 1) r0 with
          | none => none
          | some (key, r1) =>
            match skipWs r1 with
            | ':' :: r2 =>
              match parseVal fuel (skipWs r2) with
              | none => none
              | some (v, r3) =>
                parseObjRest fuel (insertKey acc (String.mk key) v) (skipWs r3)
            | _ => none
        | _ => none
      else none

end

/-- Embedding of Python's `json.loads`: parse one JSON document,
allowing surrounding whitespace only; `none` models a raised
`json.JSONDecodeError`.  The fuel `2 * length + 2` dominates the
recursion depth of the grammar (at most two recursive steps per input
character). -/
def jloads (raw : String) : Option Json :=
  let s := skipWs raw.data
  match parseVal (2 * s.length + 2) s with
  | some (v, rest) => if (skipWs rest).isEmpty then some v else none
  | none => none

/-! ## Field access on the result dictionaries -/

/-- `result["answer"]` when the result is a dict (first-match lookup is
adequate because `insertKey` keeps keys unique, as Python dicts do). -/
def answerField (j : Json) : Option Json :=
  match j with
  | Json.obj fields => fields.lookup "answer"
  | _ => none

/-- The answer field when it is present as text. -/
def answerText (j : Json) : Option String :=
  match answerField j with
  | some (Json.str s) => some s
  | _ => none

/-- Python `k in result` on a dict result. -/
def hasField (j : Json) (k : String) : Bool :=
  match j with
  | Json.obj fields => (fields.lookup k).isSome
  | _ => false

/-- Python `result.get(k, '')` for the string-valued fields the prompt
requests (the report code interpolates the value into an f-string). -/
def getStrField (j : Json) (k : String) : String :=
  match j with
  | Json.obj fields =>
    match fields.lookup k with
    | some (Json.str s) => s
    | _ => ""
  | _ => ""

/-- Python `result.get(k, [])` for the string-list fields
(`references`, `steps`). -/
def getStrListField (j : Json) (k : String) : List String :=
  match j with
  | Json.obj fields =>
    match fields.lookup k with
    | some (Json.arr items) =>
      items.map (fun it => match it with | Json.str s => s | _ => "")
    | _ => []
  | _ => []

/-! ## Credential resolution (src/utils.py, `get_api_credentials`)

External configuration enters as parameters: `secretsKey` is
`st.secrets['API_KEY']` (`none` models the raised `KeyError`),
`dotenvOk` is whether the `dotenv` import/`load_dotenv` succeeds,
`envKey`/`envBase` are `os.getenv("OPENAI_API_KEY")` /
`os.getenv("OPENAI_API_BASE")`. -/

def get_api_credentials (secretsKey : Option String) (dotenvOk : Bool)
    (envKey : Option String) (envBase : Option String) :
    Option String × String :=
  match secretsKey with
  | some k => (some k, "https://twapi.openai-hk.com/v1")
  | none =>
    if dotenvOk then
      match envKey with
      | some k =>
        if k = "" then (none, "https://api.openai.com/v1")
        else (some k, envBase.getD "https://twapi.openai-hk.com/v1")
      | none => (none, "https://api.openai.com/v1")
    else (none, "https://api.openai.com/v1")

/-! ## Prompt template (src/utils.py, `PROMPT_TEMPLATE`)

The template is a single literal; it is written here as the
concatenation of its segments around the three `{...}` substitution
points, so that `renderPrompt` is exactly the LangChain
`PromptTemplate` instantiation (f-string style, `\x7b\x7b` unescaping
to a literal brace). -/

def PROMPT_P1 : String :=
  "你是一位专业的法律顾问，请根据用户的问题提供准确、客观的法律信息和建议。\n\n请注意，你的回答应当：\n1. 基于中国现行法律法规，避免给出可能误导用户的个人见解\n2. 明确指出法律的局限性和不确定性\n3. 提醒用户在重要法律事务上咨询专业律师\n4. 提供清晰、结构化的回答\n\n当前咨询类型: "

def PROMPT_P2 : String := "\n法律领域: "

def PROMPT_P3 : String := "\n\n请按照以下JSON格式回应:\n\n对于基本法律信息:\n"

/-- The response shape the template names for basic legal information. -/
def SHAPE_BASIC : String :=
  "\x7b\"answer\": \"详细的法律解释和信息\", \"references\": [\"相关法律条款1\", \"相关法律条款2\"]\x7d"

def PROMPT_P4 : String := "\n\n对于法律文件解读:\n"

/-- The response shape the template names for document interpretation. -/
def SHAPE_DOC : String :=
  "\x7b\"answer\": \"对文件的解释和分析\", \"references\": [\"相关法律依据1\", \"相关法律依据2\"]\x7d"

def PROMPT_P5 : String := "\n\n对于案件研究与策略:\n"

/-- The response shape the template names for case research and strategy. -/
def SHAPE_CASE : String :=
  "\x7b\"answer\": \"对案件的分析\", \"steps\": [\"建议步骤1\", \"建议步骤2\"], \"references\": [\"相关法律案例1\", \"相关法律案例2\"]\x7d"

def PROMPT_P6 : String := "\n\n用户问题: "

def PROMPT_P7 : String := "\n"

/-- `PROMPT_TEMPLATE` instantiated at `query`, `consult_type`,
`legal_domain` — the prompt composer. -/
def renderPrompt (query consult_type legal_domain : String) : String :=
  PROMPT_P1 ++ consult_type ++ PROMPT_P2 ++ legal_domain ++ PROMPT_P3 ++
  SHAPE_BASIC ++ PROMPT_P4 ++ SHAPE_DOC ++ PROMPT_P5 ++ SHAPE_CASE ++
  PROMPT_P6 ++ query ++ PROMPT_P7

/-- The three consultation types, with the labels `main.py` passes to
`legal_agent`. -/
inductive ConsultType where
  | BasicInfo : ConsultType
  | DocumentInterpretation : ConsultType
  | CaseStrategy : ConsultType

/-- The `consult_type` string used for each consultation type. -/
def ctLabel : ConsultType → String
  | ConsultType.BasicInfo => "基本法律信息"
  | ConsultType.DocumentInterpretation => "法律文件解读"
  | ConsultType.CaseStrategy => "案件研究与策略"

/-- The response shape the template names for each consultation type. -/
def shapeOf : ConsultType → String
  | ConsultType.BasicInfo => SHAPE_BASIC
  | ConsultType.DocumentInterpretation => SHAPE_DOC
  | ConsultType.CaseStrategy => SHAPE_CASE

/-! ## The pipeline (src/utils.py, `legal_agent`) -/

/-- Python truthiness test `not api_key` on the resolved key: `None`
and the empty string are falsy. -/
def pyFalsyKey : Option String → Bool
  | none => true
  | some k => k == ""

def MISSING_KEY_ANSWER : String :=
  "错误：未找到API密钥。请在Streamlit Secrets中设置API_KEY。"

def MISSING_KEY_REF : String := "请在Streamlit设置中添加API_KEY"

def CONNECT_FAIL_PREFIX : String := "抱歉，无法连接到AI服务："

def CONNECT_FAIL_REF : String := "请检查您的API密钥和网络连接"

def FALLBACK_REF : String := "无法识别格式化参考"

/-- The reply-decoding step of `legal_agent`: `json.loads(response)`,
with the `JSONDecodeError` handler returning the raw-text fallback
dictionary. -/
def fallbackParse (response : String) : Json :=
  match jloads response with
  | some j => j
  | none =>
    Json.obj [("answer", Json.str response),
              ("references", Json.arr [Json.str FALLBACK_REF])]

/-- `legal_agent(query, consult_type, legal_domain)`.  The resolved
credentials and the model call (`LLMChain.run`, which can fail with an
exception caught by the inner handler — `Except.error` carries
`str(e)`) are explicit parameters.  The returned `Bool` records
whether the outbound model call was performed.  The outer
`except Exception` handler of the source is unreachable in this pure
model (credential resolution and the decode handler do not raise), so
it has no branch here. -/
def legal_agent (creds : Option String × String)
    (call : String → Except String String)
    (query consult_type legal_domain : String) : Json × Bool :=
  if pyFalsyKey creds.1 then
    (Json.obj [("answer", Json.str MISSING_KEY_ANSWER),
               ("references", Json.arr [Json.str MISSING_KEY_REF])], false)
  else
    match call (renderPrompt query consult_type legal_domain) with
    | Except.error e =>
      (Json.obj [("answer", Json.str (CONNECT_FAIL_PREFIX ++ e)),
                 ("references", Json.arr [Json.str CONNECT_FAIL_REF])], true)
    | Except.ok response => (fallbackParse response, true)

/-! ## Sample-question catalog (src/utils.py) -/

def SAMPLE_QUESTIONS : List (String × List String) :=
  [("一般法律咨询",
    ["如何查询某项法律法规的最新版本？",
     "我需要法律援助，应该如何申请？",
     "什么情况下需要公证？"]),
   ("劳动法",
    ["单位无故拖欠工资怎么办？",
     "试用期被辞退是否有赔偿？",
     "加班费如何计算？"]),
   ("合同法",
    ["口头协议是否具有法律效力？",
     "合同中的违约金上限是多少？",
     "对方不履行合同义务怎么办？"]),
   ("婚姻家庭法",
    ["离婚时财产如何分割？",
     "如何申请子女抚养权？",
     "家庭暴力应如何寻求法律保护？"]),
   ("刑事法",
    ["什么是正当防卫？",
     "取保候审的条件是什么？",
     "轻伤和重伤的法律界定标准是什么？"]),
   ("民事诉讼",
    ["民事诉讼的基本流程是什么？",
     "如何申请法院强制执行？",
     "民事诉讼的诉讼时效是多久？"]),
   ("商业法",
    ["注册公司的基本法律要求是什么？",
     "股东权益如何得到法律保障？",
     "公司破产清算的流程是什么？"]),
   ("知识产权",
    ["如何为自己的创意申请专利？",
     "商标侵权的判定标准是什么？",
     "软件著作权保护期限是多久？"]),
   ("房地产法",
    ["二手房交易中需要注意哪些法律问题？",
     "房屋租赁合同必须包含哪些条款？",
     "业主维权的法律途径有哪些？"]),
   ("行政法",
    ["如何申请政府信息公开？",
     "行政复议的申请条件和流程是什么？",
     "行政处罚决定不服如何救济？"]),
   ("交通事故",
    ["交通事故责任如何认定？",
     "交通事故赔偿项目包括哪些？",
     "交通事故调解不成功怎么办？"]),
   ("消费者权益",
    ["网购商品存在质量问题如何维权？",
     "餐饮食品安全问题的赔偿标准是什么？",
     "如何投诉商家虚假宣传？"]),
   ("医疗纠纷",
    ["医疗事故与医疗过错的区别是什么？",
     "医疗损害赔偿的构成要件有哪些？",
     "如何收集医疗纠纷证据？"])]

/-- `SAMPLE_QUESTIONS.get(domain, SAMPLE_QUESTIONS["一般法律咨询"])`.
The inner `.getD []` totalises the Python dict indexing of the default
key, which is present in the literal, so that branch is unreachable. -/
def get_sample_questions (domain : String) : List String :=
  (SAMPLE_QUESTIONS.lookup domain).getD
    ((SAMPLE_QUESTIONS.lookup "一般法律咨询").getD [])

/-! ## Document text extraction (src/main.py, `display_document_content`)

The uploaded file object is modelled by the outcomes of the library
calls the branches make: `pdfPages` is the per-page text extracted by
`PyPDF2` (`none` models a raised parse error), `docxParas` the
paragraph texts from `python-docx`, `utf8Text` the result of
`bytes.decode("utf-8")` (`none` models `UnicodeDecodeError`).  All
exceptions are caught by the function and turned into `None`. -/

structure UploadedFile where
  pdfPages : Option (List String)
  docxParas : Option (List String)
  utf8Text : Option String

def display_document_content (f : UploadedFile) (file_type : String)
    (pdfSupport docxSupport : Bool) : Option String :=
  if file_type = "pdf" then
    if !pdfSupport then none
    else
      match f.pdfPages with
      | none => none
      | some pages => some (String.join pages)
  else if file_type = "docx" then
    if !docxSupport then none
    else
      match f.docxParas with
      | none => none
      | some paras => some (String.intercalate "\n" paras)
  else if file_type = "txt" then f.utf8Text
  else none

/-! ## Report export (src/main.py, the three download reports)

Each report is the f-string of its tab, written as the concatenation of
its literal segments and interpolated values. -/

/-- `chr(10).join(['- ' + ref for ref in ...])` -/
def renderRefs (refs : List String) : String :=
  String.intercalate "\n" (refs.map (fun ref => "- " ++ ref))

/-- `chr(10).join([str(i+1) + '. ' + step for i, step in enumerate(...)])` -/
def renderSteps (steps : List String) : String :=
  String.intercalate "\n"
    (steps.enum.map (fun p => toString (p.1 + 1) ++ ". " ++ p.2))

/-- The basic-information tab's report. -/
def basicReport (timestamp legal_domain query : String) (result : Json) :
    String :=
  "法律咨询报告\n日期: " ++ timestamp ++
  "\n咨询类型: " ++ "基本法律信息" ++
  "\n法律领域: " ++ legal_domain ++
  "\n问题: " ++ query ++
  "\n\n法律建议:\n" ++ getStrField result "answer" ++
  "\n\n法律参考:\n" ++ renderRefs (getStrListField result "references") ++
  "\n"

/-- The document-interpretation tab's report; `filename` is
`doc_file.name if doc_file else "未知文件"`. -/
def docReport (timestamp filename query : String) (result : Json) : String :=
  "法律文件解读" ++ "报告\n日期: " ++ timestamp ++
  "\n文件名: " ++ filename ++
  "\n问题: " ++ query ++
  "\n\n解读结果:\n" ++ getStrField result "answer" ++
  "\n\n法律参考:\n" ++ renderRefs (getStrListField result "references") ++
  "\n"

/-- The case-strategy tab's report. -/
def caseReport (timestamp legal_domain case_details query : String)
    (result : Json) : String :=
  "案件研究报告\n日期: " ++ timestamp ++
  "\n法律领域: " ++ legal_domain ++
  "\n案件情况: " ++ case_details ++
  "\n咨询问题: " ++ query ++
  "\n\n案件分析:\n" ++ getStrField result "answer" ++
  "\n\n建议步骤:\n" ++ renderSteps (getStrListField result "steps") ++
  "\n\n法律参考:\n" ++ renderRefs (getStrListField result "references") ++
  "\n"

/-! ## History ledger (src/main.py, `st.session_state.chat_history`)

A pure model: the ledger is the list of entries; the display reads
`reversed(chat_history[-5:])` without assigning to the stored list, so
reading cannot mutate it. -/

/-- `chat_history.append(entry)` -/
def appendEntry {α : Type} (history : List α) (entry : α) : List α :=
  history ++ [entry]

/-- `reversed(chat_history[-n:])` (the display uses `n = 5`; the
Python slice is modelled for positive `n`). -/
def recentReversed {α : Type} (history : List α) (n : Nat) : List α :=
  (history.drop (history.length - n)).reverse

/-- `st.session_state.chat_history = []` (the clear-history button). -/
def clearHistory {α : Type} (_history : List α) : List α := []

/-! ## Order-of-occurrence predicate for the report claims -/

/-- `containsInOrder [p1, ..., pk] s`: the patterns occur in `s` in
this order, in disjoint segments. -/
def containsInOrder : List (List Char) → List Char → Prop
  | [], _ => True
  | p :: ps, s => ∃ pre suf, s = pre ++ p ++ suf ∧ containsInOrder ps suf

/-- The input remaining after the first occurrence of `p`, if any. -/
def dropAfterFirst (p : List Char) : List Char → Option (List Char)
  | [] => if p.isEmpty then some [] else none
  | c :: cs =>
    if p.isPrefixOf (c :: cs) then some ((c :: cs).drop p.length)
    else dropAfterFirst p cs

/-- Executable greedy check for `containsInOrder`. -/
def containsInOrderB : List (List Char) → List Char → Bool
  | [], _ => true
  | p :: ps, s =>
    match dropAfterFirst p s with
    | none => false
    | some rest => containsInOrderB ps rest

/-! ## Concrete fixtures used by witnesses and counterexamples -/

/-- A successfully resolved credential pair. -/
def credsOK : Option String × String :=
  (some "test-key", "https://twapi.openai-hk.com/v1")

/-- A model call whose reply is the empty JSON object. -/
def callEmptyObj : String → Except String String :=
  fun _ => Except.ok "\x7b\x7d"

/-- A model call whose reply is plain text, not JSON. -/
def callPlainText : String → Except String String :=
  fun _ => Except.ok "hello"

/-- A model call whose reply is a JSON object with only an answer. -/
def callAnswerOnly : String → Except String String :=
  fun _ => Except.ok "\x7b\"answer\": \"仅有答案\"\x7d"

/-- A concrete well-formed consultation result for the report claims. -/
def docResultCX : Json :=
  Json.obj [("answer", Json.str "对文件的分析"),
            ("references", Json.arr [Json.str "《合同法》第六十条"])]

/-! ## Helper lemmas -/

theorem containsInOrder_append_left (u : List Char)
    (ps : List (List Char)) (s : List Char) (h : containsInOrder ps s) :
    containsInOrder ps (u ++ s) := by
  cases ps with
  | nil => trivial
  | cons p ps =>
    obtain ⟨pre, suf, h1, h2⟩ := h
    exact ⟨u ++ pre, suf, by rw [h1]; simp, h2⟩

theorem cio_cons (pre : List Char) {p : List Char} {ps : List (List Char)}
    {s : List Char} (h : containsInOrder ps s) :
    containsInOrder (p :: ps) (pre ++ (p ++ s)) :=
  ⟨pre, s, (List.append_assoc pre p s).symm, h⟩

theorem cio_head {p : List Char} {ps : List (List Char)} {s : List Char}
    (h : containsInOrder ps s) : containsInOrder (p :: ps) (p ++ s) :=
  ⟨[], s, rfl, h⟩

theorem isPrefixOf_append (p t : List Char) : p.isPrefixOf (p ++ t) = true := by
  induction p with
  | nil => cases t with | nil => rfl | cons c cs => rfl
  | cons c cs ih =>
    show (c == c && cs.isPrefixOf (cs ++ t)) = true
    rw [ih]
    simp

theorem drop_append_le (u t : List Char) (k : Nat) (h : k ≤ u.length) :
    (u ++ t).drop k = u.drop k ++ t := by
  induction u generalizing k with
  | nil =>
    have : k = 0 := Nat.le_zero.mp h
    simp [this]
  | cons c cs ih =>
    cases k with
    | zero => simp
    | succ k => simpa using ih k (Nat.le_of_succ_le_succ h)

theorem cio_greedy :
    ∀ (s p : List Char) (ps : List (List Char)),
      containsInOrder (p :: ps) s →
      ∃ rest, dropAfterFirst p s = some rest ∧ containsInOrder ps rest := by
  intro s
  induction s with
  | nil =>
    intro p ps h
    obtain ⟨pre, suf, h1, h2⟩ := h
    obtain ⟨h4, h5⟩ := List.append_eq_nil.mp h1.symm
    obtain ⟨_, h7⟩ := List.append_eq_nil.mp h4
    subst h5 h7
    exact ⟨[], by simp [dropAfterFirst], h2⟩
  | cons c cs ih =>
    intro p ps h
    obtain ⟨pre, suf, h1, h2⟩ := h
    cases hp : p.isPrefixOf (c :: cs) with
    | true =>
      refine ⟨(c :: cs).drop p.length, by simp [dropAfterFirst, hp], ?_⟩
      rw [h1, drop_append_le (pre ++ p) suf p.length (by simp)]
      exact containsInOrder_append_left _ ps suf h2
    | false =>
      cases pre with
      | nil =>
        exfalso
        have h4 : c :: cs = p ++ suf := by simpa using h1
        have h5 := isPrefixOf_append p suf
        rw [← h4, hp] at h5
        exact Bool.noConfusion h5
      | cons c2 pre2 =>
        have h4 : cs = pre2 ++ p ++ suf := by
          have := h1
          simp only [List.cons_append] at this
          exact (List.cons.injEq _ _ _ _ ▸ this).2
        obtain ⟨rest, hdrop, hcio⟩ := ih p ps ⟨pre2, suf, h4, h2⟩
        exact ⟨rest, by simp [dropAfterFirst, hp, hdrop], hcio⟩

theorem cio_implies_B :
    ∀ (ps : List (List Char)) (s : List Char),
      containsInOrder ps s → containsInOrderB ps s = true := by
  intro ps
  induction ps with
  | nil => intro s _; rfl
  | cons p ps ih =>
    intro s h
    obtain ⟨rest, hdrop, hcio⟩ := cio_greedy s p ps h
    simp [containsInOrderB, hdrop]
    exact ih rest hcio

theorem lookup_eq_none_of_not_mem {β : Type} :
    ∀ (l : List (String × β)) (d : String),
      d ∉ l.map Prod.fst → l.lookup d = none := by
  intro l
  induction l with
  | nil => intro d _; rfl
  | cons p rest ih =>
    intro d hd
    obtain ⟨k, v⟩ := p
    have h1 : d ≠ k := by
      intro he
      exact hd (by simp [he])
    have h2 : d ∉ rest.map Prod.fst := by
      intro hm
      exact hd (by simp [hm])
    simp only [List.lookup]
    rw [show (d == k) = false from beq_eq_false_iff_ne.mpr h1]
    exact ih d h2

theorem mem_of_lookup_eq_some {β : Type} :
    ∀ (l : List (String × β)) (d : String) (v : β),
      l.lookup d = some v → (d, v) ∈ l := by
  intro l
  induction l with
  | nil => intro d v h; exact Option.noConfusion h
  | cons p rest ih =>
    intro d v h
    obtain ⟨k, w⟩ := p
    simp only [List.lookup] at h
    cases hb : d == k with
    | true =>
      rw [hb] at h
      have hd : d = k := eq_of_beq hb
      have hv : w = v := Option.some.injEq _ _ ▸ h
      subst hd hv
      exact List.mem_cons_self _ _
    | false =>
      rw [hb] at h
      exact List.mem_cons_of_mem _ (ih d v h)

/-! ## Claim theorems -/

/-- C4: for all inputs, the composed prompt contains the query and the
legal domain as literal substrings, and contains (hence names) the
response-shape line of the given consultation type. -/
theorem C4_prompt_contains_query_domain_shape (q ld : String)
    (ct : ConsultType) :
    q.data <:+: (renderPrompt q (ctLabel ct) ld).data ∧
    ld.data <:+: (renderPrompt q (ctLabel ct) ld).data ∧
    (shapeOf ct).data <:+: (renderPrompt q (ctLabel ct) ld).data := by
  refine ⟨?_, ?_, ?_⟩
  · exact ⟨(PROMPT_P1 ++ ctLabel ct ++ PROMPT_P2 ++ ld ++ PROMPT_P3 ++
      SHAPE_BASIC ++ PROMPT_P4 ++ SHAPE_DOC ++ PROMPT_P5 ++ SHAPE_CASE ++
      PROMPT_P6).data, PROMPT_P7.data, by simp [renderPrompt]⟩
  · exact ⟨(PROMPT_P1 ++ ctLabel ct ++ PROMPT_P2).data,
      (PROMPT_P3 ++ SHAPE_BASIC ++ PROMPT_P4 ++ SHAPE_DOC ++ PROMPT_P5 ++
       SHAPE_CASE ++ PROMPT_P6 ++ q ++ PROMPT_P7).data, by simp [renderPrompt]⟩
  · cases ct with
    | BasicInfo =>
      exact ⟨(PROMPT_P1 ++ ctLabel ConsultType.BasicInfo ++ PROMPT_P2 ++ ld ++
        PROMPT_P3).data,
        (PROMPT_P4 ++ SHAPE_DOC ++ PROMPT_P5 ++ SHAPE_CASE ++ PROMPT_P6 ++ q ++
         PROMPT_P7).data, by simp [renderPrompt, shapeOf]⟩
    | DocumentInterpretation =>
      exact ⟨(PROMPT_P1 ++ ctLabel ConsultType.DocumentInterpretation ++
        PROMPT_P2 ++ ld ++ PROMPT_P3 ++ SHAPE_BASIC ++ PROMPT_P4).data,
        (PROMPT_P5 ++ SHAPE_CASE ++ PROMPT_P6 ++ q ++ PROMPT_P7).data,
        by simp [renderPrompt, shapeOf]⟩
    | CaseStrategy =>
      exact ⟨(PROMPT_P1 ++ ctLabel ConsultType.CaseStrategy ++ PROMPT_P2 ++
        ld ++ PROMPT_P3 ++ SHAPE_BASIC ++ PROMPT_P4 ++ SHAPE_DOC ++
        PROMPT_P5).data,
        (PROMPT_P6 ++ q ++ PROMPT_P7).data, by simp [renderPrompt, shapeOf]⟩

/-- C5: when credential resolution yields no API key, `legal_agent`
returns the fixed missing-key result — whose answer contains the
missing-API-key phrase — and the model call is not performed
(the `false` component). -/
theorem C5_missing_key_soft_failure_no_call (base : String)
    (call : String → Except String String) (q ct ld : String) :
    legal_agent (none, base) call q ct ld =
      (Json.obj [("answer", Json.str MISSING_KEY_ANSWER),
                 ("references", Json.arr [Json.str MISSING_KEY_REF])], false) ∧
    "未找到API密钥".data <:+: MISSING_KEY_ANSWER.data := by
  refine ⟨rfl, "错误：".data, "。请在Streamlit Secrets中设置API_KEY。".data, ?_⟩
  decide

/-- C6: appending E1..E10 to the empty history and displaying the last
five entries most-recent-first yields exactly [E10,E9,E8,E7,E6]; after
clearing, the same read yields the empty sequence.  (The model is
pure: `recentReversed` cannot mutate the stored list.) -/
theorem C6_history_recent_reversed {α : Type}
    (e1 e2 e3 e4 e5 e6 e7 e8 e9 e10 : α) :
    recentReversed (List.foldl appendEntry ([] : List α)
        [e1, e2, e3, e4, e5, e6, e7, e8, e9, e10]) 5 =
      [e10, e9, e8, e7, e6] ∧
    recentReversed (clearHistory (List.foldl appendEntry ([] : List α)
        [e1, e2, e3, e4, e5, e6, e7, e8, e9, e10])) 5 = ([] : List α) :=
  ⟨rfl, rfl⟩

/-- C8: for any file content and library availability, an unknown
declared type makes `display_document_content` fail (return the `None`
failure value — the code's representation of the unsupported-format
error), never a partial or empty success. -/
theorem C8_unknown_type_fails (f : UploadedFile) (pdfS docxS : Bool)
    (ft : String) (h1 : ft ≠ "pdf") (h2 : ft ≠ "docx") (h3 : ft ≠ "txt") :
    display_document_content f ft pdfS docxS = none := by
  simp [display_document_content, h1, h2, h3]

/-- C8 witness: a concrete unknown type with full content available. -/
theorem C8_unknown_type_fails_witness :
    display_document_content ⟨some [], some [], some ""⟩ "html" true true =
      none :=
  C8_unknown_type_fails ⟨some [], some [], some ""⟩ true true "html"
    (by decide) (by decide) (by decide)

/-- C9: `get_sample_questions` returns the default domain's
(一般法律咨询) question list for every string that is not a key of the
catalog, and it never returns an empty list. -/
theorem C9_sample_questions_total_default :
    (∀ d : String, d ∉ SAMPLE_QUESTIONS.map Prod.fst →
      get_sample_questions d =
        ["如何查询某项法律法规的最新版本？",
         "我需要法律援助，应该如何申请？",
         "什么情况下需要公证？"]) ∧
    (∀ d : String, get_sample_questions d ≠ []) := by
  constructor
  · intro d hd
    rw [get_sample_questions, lookup_eq_none_of_not_mem _ _ hd]
    rfl
  · intro d
    cases h : SAMPLE_QUESTIONS.lookup d with
    | none =>
      rw [get_sample_questions, h]
      decide
    | some v =>
      have hm := mem_of_lookup_eq_some _ _ _ h
      have hall : ∀ p ∈ SAMPLE_QUESTIONS, p.2 ≠ [] := by decide
      rw [get_sample_questions, h]
      exact hall _ hm

/-- C9 witness: the empty string is not a catalog key; the result is
the default list and is nonempty. -/
theorem C9_sample_questions_total_default_witness :
    get_sample_questions "" =
      ["如何查询某项法律法规的最新版本？",
       "我需要法律援助，应该如何申请？",
       "什么情况下需要公证？"] ∧
    get_sample_questions "" ≠ [] :=
  ⟨C9_sample_questions_total_default.1 "" (by decide),
   C9_sample_questions_total_default.2 ""⟩

/-- C10 counterexample: with the secrets lookup failing but the
environment providing both a key and a base-URL override, resolution
succeeds yet returns a base URL different from the default
`https://twapi.openai-hk.com/v1` — refuting the claim that every
successful resolution path returns the default base URL. -/
theorem C10_counterexample :
    (get_api_credentials none true (some "sk-test")
        (some "https://example.com/v1")).1 = some "sk-test" ∧
    (get_api_credentials none true (some "sk-test")
        (some "https://example.com/v1")).2 ≠ "https://twapi.openai-hk.com/v1" := by
  decide

/-- C10 (amended): when both sources yield no API key (absent, or the
env key empty), the result is `(none, "https://api.openai.com/v1")`,
whose base differs from the default `https://twapi.openai-hk.com/v1`;
the secrets path always returns the default base, and the env path
returns it when `OPENAI_API_BASE` is unset. -/
theorem C10_failure_base_url (dotenvOk : Bool) (envBase : Option String) :
    get_api_credentials none dotenvOk none envBase =
      (none, "https://api.openai.com/v1") ∧
    get_api_credentials none dotenvOk (some "") envBase =
      (none, "https://api.openai.com/v1") ∧
    ("https://api.openai.com/v1" : String) ≠ "https://twapi.openai-hk.com/v1" ∧
    (∀ k, (get_api_credentials (some k) dotenvOk none envBase).2 =
      "https://twapi.openai-hk.com/v1") ∧
    (∀ k, k ≠ "" → get_api_credentials none true (some k) none =
      (some k, "https://twapi.openai-hk.com/v1")) := by
  refine ⟨?_, ?_, by decide, fun k => rfl, fun k hk => ?_⟩
  · cases dotenvOk <;> rfl
  · cases dotenvOk <;> rfl
  · simp [get_api_credentials, hk]

/-- C10 witness: a nonempty env key with no base override resolves to
the default base; both-sources-empty yields the failure pair. -/
theorem C10_failure_base_url_witness :
    get_api_credentials none true (some "sk-test") none =
      (some "sk-test", "https://twapi.openai-hk.com/v1") ∧
    get_api_credentials none true none none =
      (none, "https://api.openai.com/v1") :=
  ⟨(C10_failure_base_url true none).2.2.2.2 "sk-test" (by decide),
   (C10_failure_base_url true none).1⟩

/-- C1 counterexample: with credentials present and the model reply
decoding successfully as the empty JSON object, `legal_agent` returns
that object verbatim — a result with no answer field at all, refuting
"the answer field is present as text on every exit path". -/
theorem C1_counterexample :
    answerText (legal_agent credsOK callEmptyObj "问题" "基本法律信息"
      "劳动法").1 = none := by
  rfl

/-- C1 (amended): `legal_agent` is total (every path returns, no
unhandled error), and on every exit path the result either carries a
text answer (missing-key, call-failure and decode-failure paths all
do) or is the successfully decoded model reply returned verbatim. -/
theorem C1_pipeline_total_result (creds : Option String × String)
    (call : String → Except String String) (q ct ld : String) :
    (∃ s, answerText (legal_agent creds call q ct ld).1 = some s) ∨
    (∃ r j, call (renderPrompt q ct ld) = Except.ok r ∧ jloads r = some j ∧
      (legal_agent creds call q ct ld).1 = j) := by
  cases hk : pyFalsyKey creds.1 with
  | true =>
    left
    exact ⟨MISSING_KEY_ANSWER,
      by simp [legal_agent, hk, answerText, answerField]⟩
  | false =>
    cases hc : call (renderPrompt q ct ld) with
    | error e =>
      left
      exact ⟨CONNECT_FAIL_PREFIX ++ e,
        by simp [legal_agent, hk, hc, answerText, answerField]⟩
    | ok r =>
      cases hj : jloads r with
      | none =>
        left
        exact ⟨r, by simp [legal_agent, hk, hc, fallbackParse, hj,
          answerText, answerField]⟩
      | some j =>
        right
        exact ⟨r, j, rfl, hj,
          by simp [legal_agent, hk, hc, fallbackParse, hj]⟩

/-- C2: whenever the model reply does not decode as JSON, the pipeline
returns exactly the fallback result: the raw reply as the answer and
the single reference "无法识别格式化参考". -/
theorem C2_undecodable_reply_fallback (creds : Option String × String)
    (call : String → Except String String) (q ct ld r : String)
    (hk : pyFalsyKey creds.1 = false)
    (hc : call (renderPrompt q ct ld) = Except.ok r)
    (hj : jloads r = none) :
    (legal_agent creds call q ct ld).1 =
      Json.obj [("answer", Json.str r),
                ("references", Json.arr [Json.str FALLBACK_REF])] := by
  simp [legal_agent, hk, hc, fallbackParse, hj]

/-- C2 witness: the non-JSON reply "hello". -/
theorem C2_undecodable_reply_fallback_witness :
    pyFalsyKey credsOK.1 = false ∧
    jloads "hello" = none ∧
    (legal_agent credsOK callPlainText "q" "基本法律信息" "劳动法").1 =
      Json.obj [("answer", Json.str "hello"),
                ("references", Json.arr [Json.str FALLBACK_REF])] :=
  ⟨rfl, rfl,
   C2_undecodable_reply_fallback credsOK callPlainText "q" "基本法律信息"
     "劳动法" "hello" rfl rfl rfl⟩

/-- C3 counterexample: a reply that decodes successfully but lacks the
optional fields: the pipeline's result has no `references` and no
`steps` key at all — they are not defaulted to empty sequences in the
returned result, refuting the claim. -/
theorem C3_counterexample :
    (legal_agent credsOK callAnswerOnly "q" "基本法律信息" "劳动法").1 =
      Json.obj [("answer", Json.str "仅有答案")] ∧
    hasField (legal_agent credsOK callAnswerOnly "q" "基本法律信息"
      "劳动法").1 "references" = false ∧
    hasField (legal_agent credsOK callAnswerOnly "q" "基本法律信息"
      "劳动法").1 "steps" = false :=
  ⟨rfl, rfl, rfl⟩

/-- C3 (amended): on a successfully decoded reply the pipeline returns
the decoded value verbatim — absent optional fields stay absent in the
result (they are defaulted to empty sequences only at the consumption
sites, via `dict.get` with an empty default). -/
theorem C3_decoded_reply_verbatim (creds : Option String × String)
    (call : String → Except String String) (q ct ld r : String) (j : Json)
    (hk : pyFalsyKey creds.1 = false)
    (hc : call (renderPrompt q ct ld) = Except.ok r)
    (hj : jloads r = some j) :
    (legal_agent creds call q ct ld).1 = j := by
  simp [legal_agent, hk, hc, fallbackParse, hj]

/-- C3 witness: the answer-only JSON reply. -/
theorem C3_decoded_reply_verbatim_witness :
    jloads "\x7b\"answer\": \"仅有答案\"\x7d" =
      some (Json.obj [("answer", Json.str "仅有答案")]) ∧
    (legal_agent credsOK callAnswerOnly "q2" "基本法律信息" "劳动法").1 =
      Json.obj [("answer", Json.str "仅有答案")] :=
  ⟨rfl,
   C3_decoded_reply_verbatim credsOK callAnswerOnly "q2" "基本法律信息"
     "劳动法" "\x7b\"answer\": \"仅有答案\"\x7d"
     (Json.obj [("answer", Json.str "仅有答案")]) rfl rfl rfl⟩

/-- C7 counterexample: at a concrete document-interpretation report,
the claimed field order date-then-consultation-type fails: after the
date there is neither a "咨询类型" field (that labelled field exists
only in the basic-information report) nor any later occurrence of the
type name "法律文件解读" (it appears only in the title, before the
date). -/
theorem C7_counterexample :
    ¬ containsInOrder ["2026-01-01 12:00:00".data, "咨询类型".data,
        "contract.txt".data, "这份合同是否有效".data,
        (getStrField docResultCX "answer").data,
        (renderRefs (getStrListField docResultCX "references")).data]
      (docReport "2026-01-01 12:00:00" "contract.txt" "这份合同是否有效"
        docResultCX).data ∧
    ¬ containsInOrder ["2026-01-01 12:00:00".data, "法律文件解读".data,
        "contract.txt".data, "这份合同是否有效".data,
        (getStrField docResultCX "answer").data,
        (renderRefs (getStrListField docResultCX "references")).data]
      (docReport "2026-01-01 12:00:00" "contract.txt" "这份合同是否有效"
        docResultCX).data :=
  ⟨fun h => absurd (cio_implies_B _ _ h) (by decide),
   fun h => absurd (cio_implies_B _ _ h) (by decide)⟩

/-- C7 (amended): the basic-information report carries its fields in
the order date, consultation type, domain, question, answer,
references — as claimed.  The document and case reports name the
consultation type only in their leading title (before the date; the
case report's title "案件研究报告" names it only partially) and then
order their fields date, filename / (domain, case details), question,
answer, (steps — its section always present for the case report),
references. -/
theorem C7_report_field_order (ts dom fname details q : String) (r : Json) :
    containsInOrder [ts.data, "基本法律信息".data, dom.data, q.data,
        (getStrField r "answer").data,
        (renderRefs (getStrListField r "references")).data]
      (basicReport ts dom q r).data ∧
    containsInOrder ["法律文件解读".data, ts.data, fname.data, q.data,
        (getStrField r "answer").data,
        (renderRefs (getStrListField r "references")).data]
      (docReport ts fname q r).data ∧
    containsInOrder [ts.data, dom.data, details.data, q.data,
        (getStrField r "answer").data,
        (renderSteps (getStrListField r "steps")).data,
        (renderRefs (getStrListField r "references")).data]
      (caseReport ts dom details q r).data := by
  refine ⟨?_, ?_, ?_⟩
  · simp only [basicReport, String.data_append, List.append_assoc]
    exact cio_cons _ (cio_cons _ (cio_cons _ (cio_cons _ (cio_cons _
      (cio_cons _ True.intro)))))
  · simp only [docReport, String.data_append, List.append_assoc]
    exact cio_head (cio_cons _ (cio_cons _ (cio_cons _ (cio_cons _
      (cio_cons _ True.intro)))))
  · simp only [caseReport, String.data_append, List.append_assoc]
    exact cio_cons _ (cio_cons _ (cio_cons _ (cio_cons _ (cio_cons _
      (cio_cons _ (cio_cons _ True.intro))))))

end LCIA
